import Mathlib

/-!
Verification of the fetch-validate-persist scripts of the
`python-for-devops` repository against their specification.

The Python scripts are shallowly embedded: strings are `List Char`,
JSON objects are association lists whose values are modelled opaquely
as strings (the code never inspects values beyond key membership and
passes them through unchanged), and every external effect (HTTP
request, filesystem step) is resolved by an explicit outcome value
supplied as a parameter, one constructor per way the corresponding
library call can behave at that statement.  Exceptions are modelled
with `Except`: a `try` body is a function into `Except ExcKind _` and
each `except` handler maps the corresponding error back to a value.
Python float arithmetic in report percentages is modelled by exact
rationals (the claims concern which denominator is used, not float
rounding).
-/

namespace PyDevops

/-! ## Python string primitives -/

/-- The whitespace characters stripped by Python `str.strip()`. -/
def pyIsSpaceChar (c : Char) : Bool :=
  c == ' ' || c == '\t' || c == '\n' || c == '\r' || c == '\x0b' || c == '\x0c'

/-- Python `str.strip()`: drop leading and trailing whitespace. -/
def pyStrip (s : List Char) : List Char :=
  ((s.dropWhile pyIsSpaceChar).reverse.dropWhile pyIsSpaceChar).reverse

/-- Does `pat` occur at the head of `s`? -/
def leadMatch : List Char → List Char → Bool
  | [], _ => true
  | _ :: _, [] => false
  | a :: as, b :: bs => a == b && leadMatch as bs

/-- Python `pat in s` for strings: `pat` occurs as a contiguous substring
of `s` (case-sensitive, since characters are compared exactly). -/
def hasSub (pat : List Char) : List Char → Bool
  | [] => leadMatch pat []
  | b :: bs => leadMatch pat (b :: bs) || hasSub pat bs

/-! ## day-04 `log_analyzer.py` -/

/-- The three level names, in the order the `if/elif` chain tests them. -/
def infoPat : List Char := "INFO".data

def warningPat : List Char := "WARNING".data

def errorPat : List Char := "ERROR".data

/-- The `log_counts` dictionary of `analyze_logs`. -/
structure LogCounts where
  info : Nat
  warning : Nat
  error : Nat
deriving DecidableEq, Repr

/-- The dictionary returned by `analyze_logs`: counters, the matched
lines per level (`log_details`, flattened into three fields) and
`total_lines`. -/
structure LogAnalysis where
  counts : LogCounts
  infoDetails : List (List Char)
  warningDetails : List (List Char)
  errorDetails : List (List Char)
  total_lines : Nat
deriving DecidableEq, Repr

def initAnalysis : LogAnalysis :=
  { counts := ⟨0, 0, 0⟩, infoDetails := [], warningDetails := [],
    errorDetails := [], total_lines := 0 }

/-- One iteration of the `for line in log_lines` loop of `analyze_logs`:
strip the line, skip it when blank, otherwise count it and classify it
by the first of INFO / WARNING / ERROR occurring as a substring. -/
def analyzeStep (a : LogAnalysis) (raw : List Char) : LogAnalysis :=
  let line := pyStrip raw
  if line.isEmpty then a
  else
    let a := { a with total_lines := a.total_lines + 1 }
    if hasSub infoPat line then
      { a with counts := { a.counts with info := a.counts.info + 1 },
               infoDetails := a.infoDetails ++ [line] }
    else if hasSub warningPat line then
      { a with counts := { a.counts with warning := a.counts.warning + 1 },
               warningDetails := a.warningDetails ++ [line] }
    else if hasSub errorPat line then
      { a with counts := { a.counts with error := a.counts.error + 1 },
               errorDetails := a.errorDetails ++ [line] }
    else a

/-- `analyze_logs(log_lines)`. -/
def analyze_logs (log_lines : List (List Char)) : LogAnalysis :=
  log_lines.foldl analyzeStep initAnalysis

/-- A raw line is counted in `total_lines` iff it is non-blank after
stripping. -/
def nonblankLine (raw : List Char) : Bool := !(pyStrip raw).isEmpty

/-- A raw line increments the INFO counter. -/
def isInfoLine (raw : List Char) : Bool :=
  let l := pyStrip raw
  !l.isEmpty && hasSub infoPat l

/-- A raw line increments the WARNING counter (no INFO occurrence). -/
def isWarningLine (raw : List Char) : Bool :=
  let l := pyStrip raw
  !l.isEmpty && !hasSub infoPat l && hasSub warningPat l

/-- A raw line increments the ERROR counter (no INFO or WARNING
occurrence). -/
def isErrorLine (raw : List Char) : Bool :=
  let l := pyStrip raw
  !l.isEmpty && !hasSub infoPat l && !hasSub warningPat l && hasSub errorPat l

/-- A raw line that increments some counter: non-blank and containing
at least one level name. -/
def anyLevelLine (raw : List Char) : Bool :=
  let l := pyStrip raw
  !l.isEmpty && (hasSub infoPat l || hasSub warningPat l || hasSub errorPat l)

/-! ### `print_summary`, `read_log_file` and `main` of day-04 -/

/-- The percentage computed inside the report loops of `print_summary`
and `write_text_summary`: `(count / total_messages * 100) if
total_messages else 0`, with Python float division modelled by exact
rationals. -/
def summary_percentage (count total_messages : Nat) : ℚ :=
  if total_messages = 0 then 0 else (count : ℚ) / (total_messages : ℚ) * 100

/-- The three percentages printed by `print_summary`, in the order
INFO, WARNING, ERROR.  The denominator is
`total_messages = sum(counts.values())`, not `total_lines`. -/
def print_summary_percentages (a : LogAnalysis) : ℚ × ℚ × ℚ :=
  let total_messages := a.counts.info + a.counts.warning + a.counts.error
  (summary_percentage a.counts.info total_messages,
   summary_percentage a.counts.warning total_messages,
   summary_percentage a.counts.error total_messages)

/-- How the single `open(file_path)` read of `read_log_file` behaves:
the file is missing (`FileNotFoundError`), readable with the given
lines, or raises some other exception. -/
inductive ReadOutcome where
  | notFound
  | ok (lines : List (List Char))
  | otherError
deriving DecidableEq, Repr

/-- `read_log_file(file_path)`: on a successful read of an empty file
the code raises `ValueError("Log file is empty")`, which its own
handler catches, so every failure path prints a diagnostic and falls
through to `return None`. -/
def read_log_file : ReadOutcome → Option (List (List Char))
  | .notFound => none
  | .otherError => none
  | .ok lines => if lines.isEmpty then none else some lines

/-- Python truthiness of `log_lines` in `if not log_lines:`. -/
def pyTruthyLines : Option (List (List Char)) → Bool
  | none => false
  | some ls => !ls.isEmpty

/-- Observable result of one run of day-04 `main`.  `wroteText` /
`wroteJson` state that the corresponding summary file was written in
full (`write_text_summary` / `write_json_summary` catch all their own
exceptions, so a write failure never escapes); `failedMsg` states that
the "Log analysis failed" diagnostic was printed.  The function always
returns normally, so the process exit status is recorded directly. -/
structure Day04Run where
  exitCode : Nat
  failedMsg : Bool
  wroteText : Bool
  wroteJson : Bool
deriving DecidableEq, Repr

/-- day-04 `main()`: read the log, bail out with a diagnostic (and a
plain `return`, hence exit status 0) when the read failed, otherwise
analyze, print the summary and attempt both writes.  `textOk` /
`jsonOk` are the outcomes of the two write attempts. -/
def main_day04 (r : ReadOutcome) (textOk jsonOk : Bool) : Day04Run :=
  let log_lines := read_log_file r
  if pyTruthyLines log_lines = false then
    { exitCode := 0, failedMsg := true, wroteText := false, wroteJson := false }
  else
    { exitCode := 0, failedMsg := false, wroteText := textOk, wroteJson := jsonOk }

/-! ## day-03 `api_data_fetcher.py` (stock fetcher) -/

/-- A parsed JSON object, as far as the code inspects it: an
association list from keys to values.  Values are modelled opaquely as
strings, because the scripts only test key membership and pass the
whole object through unchanged. -/
abbrev Payload : Type := List (List Char × List Char)

/-- Python `key in data` for a dictionary. -/
def hasKeyP (d : Payload) (k : List Char) : Bool :=
  d.any (fun p => p.1 == k)

/-- The exception classes the scripts can see from one fetch:
`requests.exceptions.Timeout` / `ConnectionError` / `HTTPError` /
`RequestException`, `json.JSONDecodeError`, and any other
`Exception`. -/
inductive ExcKind where
  | timeout
  | connectionError
  | httpError
  | requestException
  | jsonDecode
  | other
deriving DecidableEq, Repr

/-- How the single `requests.get(..., timeout=10)` /
`raise_for_status()` / `response.json()` sequence of day-03
`fetch_stock_data` behaves: one constructor per exception the `try`
body can raise, or a successfully parsed JSON object. -/
inductive HttpOutcome where
  | timeout
  | connError
  | httpError
  | reqError
  | badJson
  | otherExc
  | ok (data : Payload)
deriving DecidableEq, Repr

/-- The timeout passed to `requests.get` in `fetch_stock_data`. -/
def requestTimeoutSeconds : Nat := 10

def errorMessageKey : List Char := "Error Message".data

def noteKey : List Char := "Note".data

def timeSeriesKey : List Char := "Time Series (Daily)".data

/-- The `try` body of `fetch_stock_data`: raise on any transport or
parse failure, otherwise return `None` when the payload carries an
"Error Message" or "Note" key or lacks "Time Series (Daily)", and the
untouched payload otherwise. -/
def fetch_try (h : HttpOutcome) : Except ExcKind (Option Payload) :=
  match h with
  | .timeout => .error .timeout
  | .connError => .error .connectionError
  | .httpError => .error .httpError
  | .reqError => .error .requestException
  | .badJson => .error .jsonDecode
  | .otherExc => .error .other
  | .ok data =>
    if hasKeyP data errorMessageKey then .ok none
    else if hasKeyP data noteKey then .ok none
    else if hasKeyP data timeSeriesKey = false then .ok none
    else .ok (some data)

/-- `fetch_stock_data(api_url, api_key, symbol)`: the `try` body
followed by the exception handlers.  Every handler (including the
final `except Exception`) prints a diagnostic and falls through to
`return None`, so the function never lets an exception escape. -/
def fetch_stock_data (h : HttpOutcome) : Except ExcKind (Option Payload) :=
  match fetch_try h with
  | .ok v => .ok v
  | .error _ => .ok none

/-- The `output_data` dictionary built by `save_data_to_file`:
metadata (symbol, timestamp, script version) plus the raw payload
under `"stock_data"`. -/
structure OutRecord where
  symbol : List Char
  fetched_at : List Char
  script_version : List Char
  stock_data : Payload
deriving DecidableEq, Repr

/-- How `open(filename, "w")` can fail in `save_data_to_file`. -/
inductive OpenErr where
  | notFound
  | permission
  | osErr
deriving DecidableEq, Repr

/-- The filesystem's behaviour for one `save_data_to_file` call:
whether `os.path.exists(directory)` holds at the check, whether
`os.makedirs` succeeds when attempted (when it fails, it raises
`PermissionError` or `OSError`), how `open` behaves, and whether
`json.dump` completes (when it fails, it raises `OSError`, e.g. a full
disk, after the file has already been opened and truncated).
`os.path.getsize` on the freshly written file is assumed to succeed. -/
structure FsEnv where
  dirExists : Bool
  makedirsOk : Bool
  openErr : Option OpenErr
  dumpOk : Bool
deriving DecidableEq, Repr

/-- What one `save_data_to_file` call left behind: its return value
(`success`), whether it created the destination directory, whether the
output file now exists on disk, whether that file holds the complete
serialized record, and the record when complete. -/
structure SaveResult where
  success : Bool
  dirCreated : Bool
  fileCreated : Bool
  fileComplete : Bool
  record : Option OutRecord
deriving DecidableEq, Repr

/-- `os.path.dirname(filename)`: everything before the last `/`
(modelled for relative paths; the one divergence from Python, leading
slashes of an absolute root, never matters below because only
emptiness of the result is consumed). -/
def dirnameOf (f : List Char) : List Char :=
  match f.reverse.dropWhile (fun c => !(c == '/')) with
  | [] => []
  | _ :: rest => rest.reverse

/-- The open-and-dump tail of `save_data_to_file`, after the directory
step: `open(filename, "w")` creates (truncates) the file only when it
does not raise; a `json.dump` failure afterwards leaves the partially
written file on disk, since no handler deletes it. -/
def saveOpenDump (output_data : OutRecord) (fs : FsEnv) (dirCreated : Bool) :
    SaveResult :=
  match fs.openErr with
  | some _ =>
    { success := false, dirCreated := dirCreated, fileCreated := false,
      fileComplete := false, record := none }
  | none =>
    if fs.dumpOk then
      { success := true, dirCreated := dirCreated, fileCreated := true,
        fileComplete := true, record := some output_data }
    else
      { success := false, dirCreated := dirCreated, fileCreated := true,
        fileComplete := false, record := none }

/-- `save_data_to_file(data, filename, symbol)`: build `output_data`,
create the missing directory when the filename has a directory part,
then open and dump.  Every exception handler prints and falls through
to `return False`.  `now` models `datetime.now().isoformat()`. -/
def save_data_to_file (data : Payload) (filename symbol now : List Char)
    (fs : FsEnv) : SaveResult :=
  let output_data : OutRecord :=
    { symbol := symbol, fetched_at := now, script_version := "1.1".data,
      stock_data := data }
  let directory := dirnameOf filename
  if !directory.isEmpty && !fs.dirExists then
    if fs.makedirsOk then saveOpenDump output_data fs true
    else
      { success := false, dirCreated := false, fileCreated := false,
        fileComplete := false, record := none }
  else saveOpenDump output_data fs false

/-- Observable result of one run of day-03 `main` from the point the
fetch starts: the process exit status, whether a failure diagnostic
was printed, and the `save_data_to_file` result when a save was
attempted. -/
structure RunResult where
  exitCode : Nat
  diagPrinted : Bool
  save : Option SaveResult
deriving DecidableEq, Repr

/-- The generated output filename
`stock_data_{symbol}_{timestamp}.json`. -/
def filenameFor (symbol ts : List Char) : List Char :=
  "stock_data_".data ++ symbol ++ "_".data ++ ts ++ ".json".data

/-- day-03 `main()` from the fetch on: save exactly when the fetched
value is truthy (a non-empty dict), exit 0 on a successful save, and
`sys.exit(1)` after a diagnostic on either failure.  `symbol` and `ts`
feed the generated filename; `now` is the metadata timestamp.  A raised
exception escaping `fetch_stock_data` would abort the process with a
traceback and exit status 1, but `fetch_stock_data` never raises. -/
def main_day03 (h : HttpOutcome) (symbol ts now : List Char) (fs : FsEnv) :
    RunResult :=
  let filename := filenameFor symbol ts
  match fetch_stock_data h with
  | .error _ => { exitCode := 1, diagPrinted := true, save := none }
  | .ok stock_data =>
    match stock_data with
    | none => { exitCode := 1, diagPrinted := true, save := none }
    | some d =>
      if d.isEmpty then { exitCode := 1, diagPrinted := true, save := none }
      else
        let r := save_data_to_file d filename symbol now fs
        if r.success then { exitCode := 0, diagPrinted := false, save := some r }
        else { exitCode := 1, diagPrinted := true, save := some r }

/-- The payload of a fetch, when the fetch returned one. -/
def fetchPayload (h : HttpOutcome) : Option Payload :=
  match fetch_stock_data h with
  | .ok (some d) => some d
  | _ => none

def runFileCreated (r : RunResult) : Bool :=
  match r.save with
  | none => false
  | some s => s.fileCreated

def runFileComplete (r : RunResult) : Bool :=
  match r.save with
  | none => false
  | some s => s.fileComplete

def runSaveSuccess (r : RunResult) : Bool :=
  match r.save with
  | none => false
  | some s => s.success

def runRecord (r : RunResult) : Option OutRecord :=
  match r.save with
  | none => none
  | some s => s.record

/-! ### `validate_stock_symbol` (day-03) -/

/-- A Python value as `validate_stock_symbol` can receive it: a string,
or any non-string value of which only the truthiness matters. -/
inductive PyValue where
  | str (s : List Char)
  | other (truthy : Bool)
deriving DecidableEq, Repr

/-- Python `not symbol`. -/
def pyNot : PyValue → Bool
  | .str s => s.isEmpty
  | .other t => !t

/-- Python `not isinstance(symbol, str)`. -/
def pyNotIsStr : PyValue → Bool
  | .str _ => false
  | .other _ => true

/-- An ASCII alphabetic character (the symbols of this exercise are
ASCII; Python `str.isalpha` restricted accordingly). -/
def pyIsAlphaChar (c : Char) : Bool :=
  (decide ('A' ≤ c) && decide (c ≤ 'Z')) || (decide ('a' ≤ c) && decide (c ≤ 'z'))

def pyIsUpperChar (c : Char) : Bool := decide ('A' ≤ c) && decide (c ≤ 'Z')

def pyIsLowerChar (c : Char) : Bool := decide ('a' ≤ c) && decide (c ≤ 'z')

/-- Python `str.isalpha()`: non-empty and every character alphabetic. -/
def pyStrIsAlpha (s : List Char) : Bool :=
  !s.isEmpty && s.all pyIsAlphaChar

/-- Python `str.isupper()`: at least one cased character and no
lowercase cased character (for ASCII, cased = alphabetic). -/
def pyStrIsUpper (s : List Char) : Bool :=
  s.any (fun c => pyIsUpperChar c || pyIsLowerChar c)
    && s.all (fun c => !pyIsLowerChar c)

/-- `validate_stock_symbol(symbol)`: reject falsy or non-string input,
then require 1–5 characters, all alphabetic, all uppercase. -/
def validate_stock_symbol (symbol : PyValue) : Bool :=
  if pyNot symbol || pyNotIsStr symbol then false
  else
    match symbol with
    | .other _ => false
    | .str s =>
      if !(decide (1 ≤ s.length) && decide (s.length ≤ 5)
            && pyStrIsAlpha s && pyStrIsUpper s) then false
      else true

/-! ## day-02 `api_data_fetcher.py` (simple fetcher) -/

/-- How the `requests.get(API_URL)` / `raise_for_status()` /
`response.json()` sequence of day-02 `fetch_api_data` behaves.  The
call passes no timeout, so no `Timeout` exception can fire; a 4xx/5xx
status makes `raise_for_status` raise `HTTPError`. -/
inductive Http2Outcome where
  | connError
  | httpError
  | badJson
  | ok (data : Payload)
deriving DecidableEq, Repr

/-- `fetch_api_data()`: the three calls run with **no** `try/except`,
so every exception propagates out of the function to the caller. -/
def fetch_api_data (h : Http2Outcome) : Except ExcKind Payload :=
  match h with
  | .connError => .error .connectionError
  | .httpError => .error .httpError
  | .badJson => .error .jsonDecode
  | .ok data => .ok data

/-! ## Helper lemmas -/

/-- Characterisation of the `analyze_logs` fold: counter values over
any starting accumulator. -/
lemma analyze_foldl_counts (ls : List (List Char)) (a : LogAnalysis) :
    ((ls.foldl analyzeStep a).counts.info
        = a.counts.info + ls.countP isInfoLine)
    ∧ ((ls.foldl analyzeStep a).counts.warning
        = a.counts.warning + ls.countP isWarningLine)
    ∧ ((ls.foldl analyzeStep a).counts.error
        = a.counts.error + ls.countP isErrorLine)
    ∧ ((ls.foldl analyzeStep a).total_lines
        = a.total_lines + ls.countP nonblankLine) := by
  induction ls generalizing a with
  | nil => simp
  | cons l ls ih =>
    simp only [List.foldl_cons, List.countP_cons]
    have h := ih (analyzeStep a l)
    simp only [analyzeStep, isInfoLine, isWarningLine, isErrorLine,
      nonblankLine] at h ⊢
    rcases h with ⟨h1, h2, h3, h4⟩
    by_cases hb : (pyStrip l).isEmpty
    · simp [hb] at h1 h2 h3 h4 ⊢
      exact ⟨h1, h2, h3, h4⟩
    · by_cases hi : hasSub infoPat (pyStrip l)
      · simp [hb, hi] at h1 h2 h3 h4 ⊢
        refine ⟨by omega, by omega, by omega, by omega⟩
      · by_cases hw : hasSub warningPat (pyStrip l)
        · simp [hb, hi, hw] at h1 h2 h3 h4 ⊢
          refine ⟨by omega, by omega, by omega, by omega⟩
        · by_cases he : hasSub errorPat (pyStrip l)
          · simp [hb, hi, hw, he] at h1 h2 h3 h4 ⊢
            refine ⟨by omega, by omega, by omega, by omega⟩
          · simp [hb, hi, hw, he] at h1 h2 h3 h4 ⊢
            refine ⟨by omega, by omega, by omega, by omega⟩

/-- Counter values of `analyze_logs` as counts of line predicates. -/
lemma analyze_logs_counts (ls : List (List Char)) :
    (analyze_logs ls).counts.info = ls.countP isInfoLine
    ∧ (analyze_logs ls).counts.warning = ls.countP isWarningLine
    ∧ (analyze_logs ls).counts.error = ls.countP isErrorLine
    ∧ (analyze_logs ls).total_lines = ls.countP nonblankLine := by
  have h := analyze_foldl_counts ls initAnalysis
  simpa [analyze_logs, initAnalysis] using h

/-- The three level predicates are pairwise disjoint and each implies
non-blankness, so their counts add up to at most the non-blank count. -/
lemma count_levels_le_nonblank (ls : List (List Char)) :
    ls.countP isInfoLine + ls.countP isWarningLine + ls.countP isErrorLine
      ≤ ls.countP nonblankLine := by
  induction ls with
  | nil => simp
  | cons l ls ih =>
    simp only [List.countP_cons, isInfoLine, isWarningLine, isErrorLine,
      nonblankLine]
    by_cases hb : (pyStrip l).isEmpty
    · simpa [hb] using ih
    · by_cases hi : hasSub infoPat (pyStrip l)
      · simp [hb, hi]; omega
      · by_cases hw : hasSub warningPat (pyStrip l)
        · simp [hb, hi, hw]; omega
        · by_cases he : hasSub errorPat (pyStrip l)
          · simp [hb, hi, hw, he]; omega
          · simp [hb, hi, hw, he]; omega

/-- The three level predicates partition the non-blank lines containing
at least one level name. -/
lemma count_levels_sum (ls : List (List Char)) :
    ls.countP isInfoLine + ls.countP isWarningLine + ls.countP isErrorLine
      = ls.countP anyLevelLine := by
  induction ls with
  | nil => simp
  | cons l ls ih =>
    simp only [List.countP_cons, isInfoLine, isWarningLine, isErrorLine,
      anyLevelLine]
    by_cases hb : (pyStrip l).isEmpty
    · simpa [hb] using ih
    · by_cases hi : hasSub infoPat (pyStrip l)
      · simp [hb, hi]; omega
      · by_cases hw : hasSub warningPat (pyStrip l)
        · simp [hb, hi, hw]; omega
        · by_cases he : hasSub errorPat (pyStrip l)
          · simp [hb, hi, hw, he]; omega
          · simp [hb, hi, hw, he]; omega

/-- The three percentages of one report add up to 100 whenever the
message total is non-zero. -/
lemma summary_percentage_sum (i w e : ℕ) (hs : i + w + e ≠ 0) :
    summary_percentage i (i + w + e) + summary_percentage w (i + w + e)
      + summary_percentage e (i + w + e) = 100 := by
  have hq : ((i : ℚ) + (w : ℚ) + (e : ℚ)) ≠ 0 := by
    intro hzero
    apply hs
    exact_mod_cast hzero
  simp only [summary_percentage, hs, if_false]
  push_cast
  field_simp
  ring

/-- Every run of day-03 `main` ends in exactly one of two shapes:
exit 0 with no failure diagnostic, or exit 1 with one. -/
lemma main_day03_cases (h : HttpOutcome) (symbol ts now : List Char)
    (fs : FsEnv) :
    (main_day03 h symbol ts now fs).exitCode = 0
        ∧ (main_day03 h symbol ts now fs).diagPrinted = false
    ∨ (main_day03 h symbol ts now fs).exitCode = 1
        ∧ (main_day03 h symbol ts now fs).diagPrinted = true := by
  rcases hf : fetch_stock_data h with e | v
  · simp [main_day03, hf]
  · rcases v with _ | d
    · simp [main_day03, hf]
    · simp only [main_day03, hf]
      by_cases hd : d.isEmpty
      · simp [hd]
      · by_cases hsv :
          (save_data_to_file d (filenameFor symbol ts) symbol now fs).success
        · simp [hd, hsv]
        · simp [hd, hsv]

/-- A path without a separator has no directory part. -/
lemma dirnameOf_eq_nil (f : List Char) (hf : ∀ c ∈ f, ¬c = '/') :
    dirnameOf f = [] := by
  unfold dirnameOf
  have hdw : f.reverse.dropWhile (fun c => !(c == '/')) = [] := by
    rw [List.dropWhile_eq_nil_iff]
    intro x hx
    have hx' : ¬x = '/' := hf x (List.mem_reverse.mp hx)
    simpa using hx'
  rw [hdw]

/-- An ASCII uppercase letter is not a lowercase letter. -/
lemma upper_not_lower {c : Char} (h : pyIsUpperChar c = true) :
    pyIsLowerChar c = false := by
  simp only [pyIsUpperChar, Bool.and_eq_true, decide_eq_true_eq] at h
  cases hb : pyIsLowerChar c
  · rfl
  · simp only [pyIsLowerChar, Bool.and_eq_true, decide_eq_true_eq] at hb
    exact absurd (le_trans hb.1 h.2) (by decide)

/-- An ASCII uppercase letter is alphabetic. -/
lemma upper_is_alpha {c : Char} (h : pyIsUpperChar c = true) :
    pyIsAlphaChar c = true := by
  simp only [pyIsUpperChar] at h
  simp only [pyIsAlphaChar, h, Bool.true_or]

/-- An alphabetic character that is not lowercase is uppercase. -/
lemma alpha_not_lower_upper {c : Char} (ha : pyIsAlphaChar c = true)
    (hl : pyIsLowerChar c = false) : pyIsUpperChar c = true := by
  simp only [pyIsAlphaChar, Bool.or_eq_true] at ha
  rcases ha with hup | hlow
  · simpa [pyIsUpperChar] using hup
  · rw [show ((decide ('a' ≤ c) && decide (c ≤ 'z')) : Bool)
        = pyIsLowerChar c from rfl, hl] at hlow
    exact absurd hlow (by simp)

/-- `validate_stock_symbol` on a string, as one boolean equation. -/
lemma validate_str_eq (s : List Char) :
    validate_stock_symbol (PyValue.str s)
      = (!s.isEmpty && (decide (1 ≤ s.length) && decide (s.length ≤ 5)
          && pyStrIsAlpha s && pyStrIsUpper s)) := by
  simp only [validate_stock_symbol, pyNot, pyNotIsStr, Bool.or_false]
  by_cases hemp : s.isEmpty
  · simp [hemp]
  · simp only [Bool.not_eq_true] at hemp
    simp only [hemp, Bool.false_eq_true, if_false, Bool.not_false, Bool.true_and]
    by_cases hA : (decide (1 ≤ s.length) && decide (s.length ≤ 5)
        && pyStrIsAlpha s && pyStrIsUpper s) = true
    · simp [hA]
    · simp only [Bool.not_eq_true] at hA
      simp [hA]

/-- The 1–5-uppercase-letters rule, characterised at the character
level. -/
lemma validate_stock_symbol_iff (s : List Char) :
    validate_stock_symbol (PyValue.str s) = true
      ↔ 1 ≤ s.length ∧ s.length ≤ 5 ∧ ∀ c ∈ s, 'A' ≤ c ∧ c ≤ 'Z' := by
  rw [validate_str_eq]
  constructor
  · intro hv
    simp only [Bool.and_eq_true, decide_eq_true_eq] at hv
    obtain ⟨hne, ⟨⟨⟨h1, h5⟩, halpha⟩, hupper⟩⟩ := hv
    refine ⟨h1, h5, ?_⟩
    intro c hc
    simp only [pyStrIsAlpha, Bool.and_eq_true, List.all_eq_true] at halpha
    simp only [pyStrIsUpper, Bool.and_eq_true, List.all_eq_true] at hupper
    have ha := halpha.2 c hc
    have hnl := hupper.2 c hc
    have hup : pyIsUpperChar c = true := by
      apply alpha_not_lower_upper ha
      simpa using hnl
    simpa [pyIsUpperChar, Bool.and_eq_true, decide_eq_true_eq] using hup
  · rintro ⟨h1, h5, hup⟩
    have hne : s.isEmpty = false := by
      cases s
      · simp at h1
      · simp
    have hupc : ∀ c ∈ s, pyIsUpperChar c = true := by
      intro c hc
      have hcc := hup c hc
      simp [pyIsUpperChar, hcc.1, hcc.2]
    simp only [Bool.and_eq_true, decide_eq_true_eq, hne, Bool.not_false,
      Bool.true_and]
    refine ⟨⟨⟨h1, h5⟩, ?_⟩, ?_⟩
    · simp only [pyStrIsAlpha, hne, Bool.not_false, Bool.true_and,
        List.all_eq_true]
      intro c hc
      exact upper_is_alpha (hupc c hc)
    · simp only [pyStrIsUpper, Bool.and_eq_true]
      constructor
      · rcases s with _ | ⟨c, rest⟩
        · simp at h1
        · simp only [List.any_cons]
          have hcc := hupc c (List.mem_cons_self c rest)
          simp [hcc]
      · simp only [List.all_eq_true]
        intro c hc
        have hcc := upper_not_lower (hupc c hc)
        simp [hcc]

/-- Every `save_data_to_file` call ends in one of three shapes: a full
write of the record, a partial file after a serialization failure, or
no file at all. -/
lemma save_data_shape (data : Payload) (filename symbol now : List Char)
    (fs : FsEnv) :
    (save_data_to_file data filename symbol now fs).success = true
      ∧ (save_data_to_file data filename symbol now fs).fileCreated = true
      ∧ (save_data_to_file data filename symbol now fs).fileComplete = true
      ∧ (save_data_to_file data filename symbol now fs).record
          = some { symbol := symbol, fetched_at := now,
                   script_version := "1.1".data, stock_data := data }
      ∧ fs.openErr = none ∧ fs.dumpOk = true
    ∨ (save_data_to_file data filename symbol now fs).success = false
      ∧ (save_data_to_file data filename symbol now fs).fileCreated = true
      ∧ (save_data_to_file data filename symbol now fs).fileComplete = false
      ∧ (save_data_to_file data filename symbol now fs).record = none
      ∧ fs.openErr = none ∧ fs.dumpOk = false
    ∨ (save_data_to_file data filename symbol now fs).success = false
      ∧ (save_data_to_file data filename symbol now fs).fileCreated = false
      ∧ (save_data_to_file data filename symbol now fs).fileComplete = false
      ∧ (save_data_to_file data filename symbol now fs).record = none := by
  rcases fs with ⟨de, mk, oe, dk⟩
  by_cases hdir : (dirnameOf filename).isEmpty <;>
    cases de <;> cases mk <;> rcases oe with _ | oerr <;> cases dk <;>
      simp [save_data_to_file, saveOpenDump, hdir]

/-! ## Claims -/

/-- C6: for every log line, classification is by case-sensitive
substring match with first-match-wins in the fixed order INFO,
WARNING, ERROR: `analyze_logs` increments exactly one counter — the
first of INFO, WARNING, ERROR whose name occurs as a substring of the
stripped line — and increments none if no level name occurs.  Stated
as: each counter equals the number of lines whose stripped form is
non-blank, contains that level's name, and contains no earlier level's
name; and the three counters together count exactly the non-blank
lines containing at least one level name. -/
theorem C6_classification (ls : List (List Char)) :
    (analyze_logs ls).counts.info = ls.countP isInfoLine
    ∧ (analyze_logs ls).counts.warning = ls.countP isWarningLine
    ∧ (analyze_logs ls).counts.error = ls.countP isErrorLine
    ∧ (analyze_logs ls).counts.info + (analyze_logs ls).counts.warning
        + (analyze_logs ls).counts.error
      = ls.countP anyLevelLine := by
  obtain ⟨h1, h2, h3, _⟩ := analyze_logs_counts ls
  refine ⟨h1, h2, h3, ?_⟩
  rw [h1, h2, h3]
  exact count_levels_sum ls

/-- C9: for every list of log lines, `analyze_logs` keeps the
invariant that the sum of the INFO, WARNING and ERROR counts is at
most `total_lines` (non-blank lines matching no level are counted in
`total_lines` but in no level), and the percentages printed by
`print_summary` are computed over the sum of the three level counts —
each equals `count * 100 / (info + warning + error)` and they add up
to 100 whenever that sum is non-zero. -/
theorem C9_counts_invariant_and_percentages (ls : List (List Char)) :
    (analyze_logs ls).counts.info + (analyze_logs ls).counts.warning
        + (analyze_logs ls).counts.error ≤ (analyze_logs ls).total_lines
    ∧ ((analyze_logs ls).counts.info + (analyze_logs ls).counts.warning
          + (analyze_logs ls).counts.error ≠ 0 →
        (print_summary_percentages (analyze_logs ls)).1
            = ((analyze_logs ls).counts.info : ℚ) * 100
                / (((analyze_logs ls).counts.info
                    + (analyze_logs ls).counts.warning
                    + (analyze_logs ls).counts.error : Nat) : ℚ)
        ∧ (print_summary_percentages (analyze_logs ls)).1
            + (print_summary_percentages (analyze_logs ls)).2.1
            + (print_summary_percentages (analyze_logs ls)).2.2 = 100) := by
  constructor
  · obtain ⟨h1, h2, h3, h4⟩ := analyze_logs_counts ls
    rw [h1, h2, h3, h4]
    exact count_levels_le_nonblank ls
  · intro hs
    have hq : (((analyze_logs ls).counts.info + (analyze_logs ls).counts.warning
        + (analyze_logs ls).counts.error : Nat) : ℚ) ≠ 0 := by
      exact_mod_cast hs
    constructor
    · simp only [print_summary_percentages, summary_percentage, hs, if_false]
      rw [div_mul_eq_mul_div]
    · simp only [print_summary_percentages]
      exact summary_percentage_sum _ _ _ hs

/-- C10: `read_log_file` treats an empty log file as an error: for an
existing file with no lines it returns `None` (the internally raised
`ValueError` is caught and converted), so `main` reports "Log analysis
failed" and writes no summary files instead of producing a zero-count
report — whatever the outcomes of the (never attempted) writes would
have been. -/
theorem C10_empty_log_file (t j : Bool) :
    read_log_file (ReadOutcome.ok []) = none
    ∧ main_day04 (ReadOutcome.ok []) t j
        = { exitCode := 0, failedMsg := true, wroteText := false,
            wroteJson := false } := by
  exact ⟨rfl, rfl⟩

/-- C2 counterexample: a day-04 run whose log file is missing reaches
the failure diagnostic ("Log analysis failed") yet the process exits
with status 0, because `main` merely `return`s — contradicting the
claim that every failed run exits with a non-zero status. -/
theorem C2_counterexample :
    (main_day04 ReadOutcome.notFound true true).failedMsg = true
    ∧ (main_day04 ReadOutcome.notFound true true).exitCode = 0 := by
  decide

/-- C2 (amended): day-03 `main` exits with status 0 on success and
status 1 after printing a diagnostic on any failure; day-04 `main`
prints a diagnostic on failure but always exits with status 0, because
its failure path is a plain `return`. -/
theorem C2_exit_codes (h : HttpOutcome) (symbol ts now : List Char)
    (fs : FsEnv) (r : ReadOutcome) (t j : Bool) :
    ((main_day03 h symbol ts now fs).exitCode = 0
        ∨ (main_day03 h symbol ts now fs).exitCode = 1)
    ∧ ((main_day03 h symbol ts now fs).exitCode ≠ 0
        → (main_day03 h symbol ts now fs).diagPrinted = true)
    ∧ ((main_day03 h symbol ts now fs).exitCode = 0
        → (main_day03 h symbol ts now fs).diagPrinted = false)
    ∧ (main_day04 r t j).exitCode = 0 := by
  have hm := main_day03_cases h symbol ts now fs
  refine ⟨?_, ?_, ?_, ?_⟩
  · rcases hm with ⟨h0, _⟩ | ⟨h1, _⟩
    · exact Or.inl h0
    · exact Or.inr h1
  · rcases hm with ⟨h0, _⟩ | ⟨_, hd⟩
    · intro hne
      exact absurd h0 hne
    · intro _
      exact hd
  · rcases hm with ⟨_, hd⟩ | ⟨h1, _⟩
    · intro _
      exact hd
    · intro h0
      rw [h1] at h0
      exact absurd h0 one_ne_zero
  · rcases r with _ | lines | _
    · rfl
    · simp only [main_day04]
      split <;> rfl
    · rfl

/-- C4: for every request whose fetch exceeds the configured timeout
(10 seconds in the code), the run terminates in a Timeout failure —
`fetch_stock_data` returns `None` after the `Timeout` handler fires —
and no sink write occurs: `save_data_to_file` is never called, so no
output file, partial or otherwise, is created, and the process exits
with status 1. -/
theorem C4_timeout_no_write (symbol ts now : List Char) (fs : FsEnv) :
    requestTimeoutSeconds = 10
    ∧ fetch_stock_data HttpOutcome.timeout = Except.ok none
    ∧ (main_day03 HttpOutcome.timeout symbol ts now fs).save = none
    ∧ runFileCreated (main_day03 HttpOutcome.timeout symbol ts now fs) = false
    ∧ (main_day03 HttpOutcome.timeout symbol ts now fs).exitCode = 1 := by
  exact ⟨rfl, rfl, rfl, rfl, rfl⟩

/-- C5 counterexample: the claim quantifies over "every script that
performs a fetch", but day-02's `fetch_api_data` performs its HTTP
call and `response.json()` parse with no exception handling, so a
malformed JSON body makes the fetch call raise an unhandled
`JSONDecodeError` instead of returning a failure value. -/
theorem C5_counterexample :
    fetch_api_data Http2Outcome.badJson = Except.error ExcKind.jsonDecode := by
  rfl

/-- C5 (amended): day-03's `fetch_stock_data` never lets an exception
escape (every outcome yields a returned value) and returns `None` on a
malformed-JSON response body; day-02's `fetch_api_data`, which has no
handlers, propagates the JSON decode error out of the fetch call. -/
theorem C5_malformed_json_handling :
    (∀ h : HttpOutcome, ∃ v, fetch_stock_data h = Except.ok v)
    ∧ fetch_stock_data HttpOutcome.badJson = Except.ok none
    ∧ fetch_api_data Http2Outcome.badJson = Except.error ExcKind.jsonDecode := by
  refine ⟨?_, rfl, rfl⟩
  intro h
  cases h
  case ok data =>
    simp only [fetch_stock_data, fetch_try]
    split_ifs <;> exact ⟨_, rfl⟩
  all_goals exact ⟨none, rfl⟩

/-- C7: `validate_stock_symbol` returns `True` exactly for strings of
1 to 5 uppercase letters and `False` for every other input — empty
strings, non-strings, lowercase or mixed-case strings, strings longer
than 5 characters, and strings containing non-letter characters
(characters modelled over ASCII). -/
theorem C7_validate_symbol (v : PyValue) :
    validate_stock_symbol v = true
      ↔ ∃ s, v = PyValue.str s ∧ 1 ≤ s.length ∧ s.length ≤ 5
          ∧ ∀ c ∈ s, 'A' ≤ c ∧ c ≤ 'Z' := by
  cases v with
  | str s =>
    rw [validate_stock_symbol_iff]
    constructor
    · rintro ⟨h1, h5, hc⟩
      exact ⟨s, rfl, h1, h5, hc⟩
    · rintro ⟨s', heq, h1, h5, hc⟩
      injection heq with hss
      subst hss
      exact ⟨h1, h5, hc⟩
  | other t =>
    constructor
    · intro hv
      simp [validate_stock_symbol, pyNot, pyNotIsStr] at hv
    · rintro ⟨s', heq, -⟩
      cases heq

/-- C7 witness: the symbol `IBM` validates. -/
theorem C7_witness : validate_stock_symbol (PyValue.str "IBM".data) = true :=
  (C7_validate_symbol (PyValue.str "IBM".data)).mpr
    ⟨"IBM".data, rfl, by decide, by decide, by decide⟩

/-- C1 counterexample: with a fetch that returned a payload and a
`json.dump` that raises `OSError` after `open(filename, "w")` already
created (truncated) the output file, the run fails (exit 1) yet the
output file exists on disk, holding a partial record — contradicting
"the output file is created exactly when the fetch succeeded and
`save_data_to_file` completes, and no partial record is ever written
on any failure path". -/
theorem C1_counterexample :
    runFileCreated (main_day03 (HttpOutcome.ok [(timeSeriesKey, "1".data)])
        "IBM".data "20240101_000000".data "T".data
        ⟨true, true, none, false⟩) = true
    ∧ runFileComplete (main_day03 (HttpOutcome.ok [(timeSeriesKey, "1".data)])
        "IBM".data "20240101_000000".data "T".data
        ⟨true, true, none, false⟩) = false
    ∧ runSaveSuccess (main_day03 (HttpOutcome.ok [(timeSeriesKey, "1".data)])
        "IBM".data "20240101_000000".data "T".data
        ⟨true, true, none, false⟩) = false
    ∧ (main_day03 (HttpOutcome.ok [(timeSeriesKey, "1".data)])
        "IBM".data "20240101_000000".data "T".data
        ⟨true, true, none, false⟩).exitCode = 1 := by
  decide

/-- C1 (amended): a **complete** output record is on disk exactly when
`fetch_stock_data` returned a non-None payload and `save_data_to_file`
succeeded; when the fetch fails no write is attempted at all; but a
partial output file can remain on a failure path — exactly when
serialization fails after the file was already opened (the code never
deletes it), and then the run exits 1. -/
theorem C1_write_iff (h : HttpOutcome) (symbol ts now : List Char)
    (fs : FsEnv) :
    (runFileComplete (main_day03 h symbol ts now fs) = true
        ↔ (fetchPayload h).isSome = true
            ∧ runSaveSuccess (main_day03 h symbol ts now fs) = true)
    ∧ (runRecord (main_day03 h symbol ts now fs)).isSome
        = runFileComplete (main_day03 h symbol ts now fs)
    ∧ ((fetchPayload h).isSome = false
        → (main_day03 h symbol ts now fs).save = none)
    ∧ (runFileCreated (main_day03 h symbol ts now fs) = true
        ∧ runFileComplete (main_day03 h symbol ts now fs) = false
        → fs.openErr = none ∧ fs.dumpOk = false
            ∧ (main_day03 h symbol ts now fs).exitCode = 1) := by
  rcases hf : fetch_stock_data h with e | v
  · simp [main_day03, fetchPayload, hf, runFileComplete, runFileCreated,
      runSaveSuccess, runRecord]
  · rcases v with _ | d
    · simp [main_day03, fetchPayload, hf, runFileComplete, runFileCreated,
        runSaveSuccess, runRecord]
    · by_cases hd : d.isEmpty
      · simp [main_day03, fetchPayload, hf, hd, runFileComplete,
          runFileCreated, runSaveSuccess, runRecord]
      · rcases save_data_shape d (filenameFor symbol ts) symbol now fs with
          ⟨hs1, hc1, hp1, hr1, ho1, hk1⟩ | ⟨hs1, hc1, hp1, hr1, ho1, hk1⟩
          | ⟨hs1, hc1, hp1, hr1⟩
        · simp [main_day03, fetchPayload, hf, hd, hs1, hc1, hp1, hr1,
            runFileComplete, runFileCreated, runSaveSuccess, runRecord]
        · simp [main_day03, fetchPayload, hf, hd, hs1, hc1, hp1, hr1, ho1,
            hk1, runFileComplete, runFileCreated, runSaveSuccess, runRecord]
        · simp [main_day03, fetchPayload, hf, hd, hs1, hc1, hp1, hr1,
            runFileComplete, runFileCreated, runSaveSuccess, runRecord]

/-- C1 witness: a fully successful run writes the complete record. -/
theorem C1_witness :
    runFileComplete (main_day03 (HttpOutcome.ok [(timeSeriesKey, "1".data)])
        "IBM".data "20240101_000000".data "T".data
        ⟨true, true, none, true⟩) = true :=
  (C1_write_iff (HttpOutcome.ok [(timeSeriesKey, "1".data)])
      "IBM".data "20240101_000000".data "T".data
      ⟨true, true, none, true⟩).1.mpr ⟨by decide, by decide⟩

/-- C3: for all valid requests with a reachable resource and a
well-formed response (a payload carrying "Time Series (Daily)" and no
API error or rate-limit key) and a filesystem on which open and write
succeed, the pipeline completes successfully (exit 0) and the sink
contains a record whose payload field under `"stock_data"` is the
unmodified value returned by `fetch_stock_data`.  A validated symbol
and a `strftime` timestamp contain no path separator, so the generated
filename has no directory part. -/
theorem C3_roundtrip_fidelity (data : Payload) (symbol ts now : List Char)
    (fs : FsEnv)
    (hts : hasKeyP data timeSeriesKey = true)
    (herr : hasKeyP data errorMessageKey = false)
    (hnote : hasKeyP data noteKey = false)
    (hopen : fs.openErr = none) (hdump : fs.dumpOk = true)
    (hsym : ∀ c ∈ symbol, ¬c = '/') (htsc : ∀ c ∈ ts, ¬c = '/') :
    (main_day03 (HttpOutcome.ok data) symbol ts now fs).exitCode = 0
    ∧ runRecord (main_day03 (HttpOutcome.ok data) symbol ts now fs)
        = some { symbol := symbol, fetched_at := now,
                 script_version := "1.1".data, stock_data := data } := by
  have hfetch : fetch_stock_data (HttpOutcome.ok data)
      = Except.ok (some data) := by
    simp [fetch_stock_data, fetch_try, herr, hnote, hts]
  have hdne : data.isEmpty = false := by
    cases data
    · simp [hasKeyP] at hts
    · simp
  have hdirn : dirnameOf (filenameFor symbol ts) = [] := by
    apply dirnameOf_eq_nil
    intro c hc
    simp only [filenameFor, List.mem_append] at hc
    rcases hc with (((hc | hc) | hc) | hc) | hc
    · exact (by decide : ∀ x ∈ "stock_data_".data, ¬x = '/') c hc
    · exact hsym c hc
    · exact (by decide : ∀ x ∈ "_".data, ¬x = '/') c hc
    · exact htsc c hc
    · exact (by decide : ∀ x ∈ ".json".data, ¬x = '/') c hc
  simp [main_day03, hfetch, hdne, save_data_to_file, saveOpenDump, hdirn,
    hopen, hdump, runRecord]

/-- C3 witness: a concrete well-formed response round-trips. -/
theorem C3_witness :
    (main_day03 (HttpOutcome.ok [(timeSeriesKey, "1".data)])
        "IBM".data "20240101_000000".data "T".data
        ⟨false, true, none, true⟩).exitCode = 0
    ∧ runRecord (main_day03 (HttpOutcome.ok [(timeSeriesKey, "1".data)])
        "IBM".data "20240101_000000".data "T".data
        ⟨false, true, none, true⟩)
      = some { symbol := "IBM".data, fetched_at := "T".data,
               script_version := "1.1".data,
               stock_data := [(timeSeriesKey, "1".data)] } :=
  C3_roundtrip_fidelity [(timeSeriesKey, "1".data)]
    "IBM".data "20240101_000000".data "T".data ⟨false, true, none, true⟩
    (by decide) (by decide) (by decide) rfl rfl (by decide) (by decide)

/-- C8 counterexample: a destination whose parent directory is missing
and whose file open then raises `PermissionError` makes
`save_data_to_file` return `False` — but the directory it created
just before the error stays on disk, contradicting "creates nothing
on disk"; the same input also refutes the unconditional "creates the
directory and then succeeds" half. -/
theorem C8_counterexample :
    (save_data_to_file [("k".data, "1".data)] "out/data.json".data
        "IBM".data "T".data ⟨false, true, some OpenErr.permission, true⟩
      ).success = false
    ∧ (save_data_to_file [("k".data, "1".data)] "out/data.json".data
        "IBM".data "T".data ⟨false, true, some OpenErr.permission, true⟩
      ).dirCreated = true
    ∧ (save_data_to_file [("k".data, "1".data)] "out/data.json".data
        "IBM".data "T".data ⟨false, true, some OpenErr.permission, true⟩
      ).fileCreated = false := by
  decide

/-- C8 (amended): when the parent directory is missing, persist
creates it and then succeeds provided directory creation, file open
and serialization all succeed; on a `PermissionError` at open the call
returns `False` and writes no file — though a directory created
earlier in the same call remains on disk; and when directory creation
itself fails, nothing is created at all. -/
theorem C8_persist_directory (data : Payload) (filename symbol now : List Char)
    (fs : FsEnv) :
    ((dirnameOf filename).isEmpty = false → fs.dirExists = false
        → fs.makedirsOk = true → fs.openErr = none → fs.dumpOk = true
        → (save_data_to_file data filename symbol now fs).success = true
          ∧ (save_data_to_file data filename symbol now fs).dirCreated = true)
    ∧ (fs.openErr = some OpenErr.permission
        → (save_data_to_file data filename symbol now fs).success = false
          ∧ (save_data_to_file data filename symbol now fs).fileCreated = false
          ∧ (save_data_to_file data filename symbol now fs).fileComplete = false
          ∧ (save_data_to_file data filename symbol now fs).record = none)
    ∧ ((dirnameOf filename).isEmpty = false → fs.dirExists = false
        → fs.makedirsOk = false
        → (save_data_to_file data filename symbol now fs).success = false
          ∧ (save_data_to_file data filename symbol now fs).dirCreated = false
          ∧ (save_data_to_file data filename symbol now fs).fileCreated
              = false) := by
  refine ⟨?_, ?_, ?_⟩
  · intro h1 h2 h3 h4 h5
    simp [save_data_to_file, saveOpenDump, h1, h2, h3, h4, h5]
  · intro hperm
    rcases fs with ⟨de, mk, oe, dk⟩
    simp only at hperm
    subst hperm
    by_cases hdir : (dirnameOf filename).isEmpty <;>
      cases de <;> cases mk <;> cases dk <;>
        simp [save_data_to_file, saveOpenDump, hdir]
  · intro h1 h2 h3
    simp [save_data_to_file, saveOpenDump, h1, h2, h3]

/-- C8 witness: with a missing parent directory and a cooperative
filesystem, persist creates the directory and succeeds. -/
theorem C8_witness :
    (save_data_to_file [("k".data, "1".data)] "out/data.json".data
        "IBM".data "T".data ⟨false, true, none, true⟩).success = true
    ∧ (save_data_to_file [("k".data, "1".data)] "out/data.json".data
        "IBM".data "T".data ⟨false, true, none, true⟩).dirCreated = true :=
  (C8_persist_directory [("k".data, "1".data)] "out/data.json".data
      "IBM".data "T".data ⟨false, true, none, true⟩).1
    (by decide) rfl rfl rfl rfl

/-- C2 witness: a timed-out day-03 run exits 1 after its diagnostic. -/
theorem C2_witness :
    (main_day03 HttpOutcome.timeout "IBM".data "20240101_000000".data
        "T".data ⟨true, true, none, true⟩).diagPrinted = true :=
  (C2_exit_codes HttpOutcome.timeout "IBM".data "20240101_000000".data
      "T".data ⟨true, true, none, true⟩ ReadOutcome.notFound true true).2.1
    (by decide)

/-- C9 witness: on a concrete log with one INFO line, one ERROR line
and one unclassified line, the level counts stay below `total_lines`
and the printed percentages add up to 100. -/
theorem C9_witness :
    (analyze_logs ["x INFO".data, "y ERROR".data, "hello".data]).counts.info
        + (analyze_logs ["x INFO".data, "y ERROR".data,
            "hello".data]).counts.warning
        + (analyze_logs ["x INFO".data, "y ERROR".data,
            "hello".data]).counts.error
      ≤ (analyze_logs ["x INFO".data, "y ERROR".data,
          "hello".data]).total_lines
    ∧ (print_summary_percentages (analyze_logs ["x INFO".data,
          "y ERROR".data, "hello".data])).1
        + (print_summary_percentages (analyze_logs ["x INFO".data,
            "y ERROR".data, "hello".data])).2.1
        + (print_summary_percentages (analyze_logs ["x INFO".data,
            "y ERROR".data, "hello".data])).2.2 = 100 :=
  ⟨(C9_counts_invariant_and_percentages
      ["x INFO".data, "y ERROR".data, "hello".data]).1,
   ((C9_counts_invariant_and_percentages
      ["x INFO".data, "y ERROR".data, "hello".data]).2 (by decide)).2⟩

end PyDevops
